import Mathlib

/-
Verification of the Memory-Machines frontend core: a shallow embedding of
`src/frontend/src/utils/audioUtils.js`, `src/frontend/src/hooks/useDeepgram.js`
and `src/frontend/src/hooks/useSentimentProcessor.js`, with theorems about the
float-to-PCM16 encoder, the WebSocket reconnect backoff, and the sentiment
request coordinator (debounce, queue, retry, response handling).

Numbers: audio samples and sentiment scores are modelled as rationals (JS
doubles; every constant appearing in the source is exactly representable).
Stateful hook code is modelled as explicit state passing: the mutable refs of
`useSentimentProcessor` become the fields of `CoordState`, and the
asynchronous callbacks (the debounce timer, the awaited request) become
events applied by a step function.
-/

/-! ## JS string primitives -/

/-- JS `String.prototype.trim`: strip leading and trailing whitespace from
both ends, modelled structurally on the character list so that it evaluates.
(The inputs used in this development are ASCII, where JS and Lean agree on
what counts as whitespace.) -/
def jsTrim (s : String) : String :=
  ⟨((s.data.dropWhile Char.isWhitespace).reverse.dropWhile Char.isWhitespace).reverse⟩

/-- JS `x || d` on an optional string: `d` when `x` is absent or is the empty
string (both falsy), else the string itself. -/
def jsOr (x : Option String) (d : String) : String :=
  match x with
  | some s => if s = "" then d else s
  | none => d

/-! ## audioUtils.js — float-to-PCM16 conversion -/

/-- Clamp one sample to the range `[-1, 1]`
(`audioUtils.js` line 22: `Math.max(-1, Math.min(1, buffer[i]))`). -/
def clampSample (x : ℚ) : ℚ := max (-1) (min 1 x)

/-- JS conversion of a number to a 16-bit lane truncates toward zero
(`ToInt16` on assignment into an `Int16Array`; every value produced by
`convertFloat32ToInt16` is already in `[-32768, 32767]`, so the wrap-around
step of `ToInt16` is the identity and truncation is all that remains). -/
def jsTrunc (q : ℚ) : ℤ := if 0 ≤ q then ⌊q⌋ else ⌈q⌉

/-- One sample of `convertFloat32ToInt16` (`audioUtils.js` lines 20-28):
clamp to `[-1, 1]`, then scale by 32768 (`0x8000`) when negative and by
32767 (`0x7FFF`) otherwise. -/
def encodeSample (x : ℚ) : ℤ :=
  let sample := clampSample x
  if sample < 0 then jsTrunc (sample * 32768) else jsTrunc (sample * 32767)

/-- The function `audioUtils.convertFloat32ToInt16` on a whole buffer. -/
def convertFloat32ToInt16 (buffer : List ℚ) : List ℤ :=
  buffer.map encodeSample

/-! ## useDeepgram.js — reconnect policy -/

/-- The reconnect cap hard-coded in `useDeepgram.js` line 102
(`reconnectAttempts.current < 3`). -/
def maxReconnectAttempts : ℕ := 3

/-- The function `useDeepgram.handleReconnect` (lines 183-193): increment the attempt
counter, then schedule a reconnect after
`min(1000 * 2 ^ reconnectAttempts.current, 10000)` ms, where the counter has
already been incremented. Returns (new counter value, delay in ms). -/
def handleReconnect (attempts : ℕ) : ℕ × ℕ :=
  (attempts + 1, min (1000 * 2 ^ (attempts + 1)) 10000)

/-- The `ws.onclose` handler (lines 96-105): when the close code is not 1000
and fewer than `maxReconnectAttempts` reconnects have been made, run
`handleReconnect`; otherwise schedule nothing. Returns `some (counter, delay)`
when a reconnect is scheduled. -/
def onCloseStep (code : ℕ) (attempts : ℕ) : Option (ℕ × ℕ) :=
  if code ≠ 1000 ∧ attempts < maxReconnectAttempts then some (handleReconnect attempts)
  else none

/-! ## useSentimentProcessor.js — data model -/

/-- A sentiment object as the hook manipulates it:
`{score, type, intensity}`. -/
structure Sentiment where
  score : ℚ
  type : String
  intensity : String
deriving DecidableEq

/-- The `setSentiment` updater (lines 132-141): with no previous sentiment the
incoming object is taken wholesale; otherwise the score is smoothed as
`previous * 0.3 + incoming * 0.7` while type and intensity are replaced by the
incoming values. -/
def updateSentiment (prev : Option Sentiment) (incoming : Sentiment) : Sentiment :=
  match prev with
  | none => incoming
  | some p =>
    { score := p.score * (3/10) + incoming.score * (7/10)
      type := incoming.type
      intensity := incoming.intensity }

/-- A JSON response body as the success path inspects it (lines 126-154):
`sentiment` is `some` exactly when the body has a `sentiment` field that is an
object, and `keywords` is `some` exactly when the body has a `keywords` field
that is an array (possibly empty). The backend replies with JSON objects, so
`response.data` is truthy whenever a response body arrives at this code. -/
structure Body where
  sentiment : Option Sentiment
  keywords : Option (List String)
deriving DecidableEq

/-- The data of a thrown JS error as the retry loop and the catch block
inspect it: `name` and `code` (for the abort test), the optional
`response.status` and `response.data.message` (present when the server
answered with an error status), whether `request` is set (request sent, no
response), and the error `message`. -/
structure JsError where
  name : String
  code : String
  responseStatus : Option ℕ
  responseMessage : Option String
  hasRequest : Bool
  message : Option String
deriving DecidableEq

/-- The abort test of the retry loop (line 112):
`err.name === "AbortError" (as a JS string) or err.code === "ECONNABORTED"`. -/
def isAbortLike (e : JsError) : Bool :=
  e.name == "AbortError" || e.code == "ECONNABORTED"

/-- The error classification of the catch block (lines 159-179): map a thrown
error to the user-facing message. -/
def classifyError (e : JsError) : String :=
  match e.responseStatus with
  | some status =>
    if status = 400 then "Invalid text format"
    else if status = 500 then "Sentiment analysis service unavailable"
    else if status = 503 then "Service temporarily unavailable"
    else jsOr e.responseMessage "Failed to analyze sentiment"
  | none =>
    if e.hasRequest then "Cannot connect to backend. Please ensure the server is running."
    else jsOr e.message "Failed to analyze sentiment"

/-! ## useSentimentProcessor.js — retry loop -/

/-- The constant `MAX_RETRIES` (line 31). -/
def MAX_RETRIES : ℕ := 3

/-- The constant `RETRY_DELAY` in ms (line 32). -/
def RETRY_DELAY : ℕ := 1000

/-- How the `while (attempt < MAX_RETRIES && !response)` loop (lines 94-124)
can end: with a response (`gotResponse`), via the abort `break` with no
response (`abortedOut`), by re-throwing the last error (`threw`), or by the
loop condition turning false with no response (`noResponse`, unreachable when
the loop starts at attempt 0 because the third failure throws first). -/
inductive LoopResult where
  | gotResponse (body : Body)
  | abortedOut
  | threw (e : JsError)
  | noResponse
deriving DecidableEq

/-- The retry while-loop, one iteration per unit of fuel (the fuel equals
`MAX_RETRIES - attempt`, so the loop condition `attempt < MAX_RETRIES` is
exactly `fuel > 0`). `net i` is the outcome of the `axios.post` call of
attempt `i` (0-based). Returns the loop result, the number of attempts made,
and the list of backoff delays awaited (each `RETRY_DELAY * (currentAttempt + 1)`
ms, line 119). -/
def retryFrom (net : ℕ → Except JsError Body) : ℕ → ℕ → LoopResult × ℕ × List ℕ
  | 0, _ => (.noResponse, 0, [])
  | fuel + 1, attempt =>
    match net attempt with
    | .ok body => (.gotResponse body, 1, [])
    | .error e =>
      if isAbortLike e then (.abortedOut, 1, [])
      else if attempt < MAX_RETRIES - 1 then
        let rest := retryFrom net fuel (attempt + 1)
        (rest.1, rest.2.1 + 1, RETRY_DELAY * (attempt + 1) :: rest.2.2)
      else (.threw e, 1, [])

/-- The whole request execution: run the retry loop from attempt 0. -/
def executeRequest (net : ℕ → Except JsError Body) : LoopResult × ℕ × List ℕ :=
  retryFrom net MAX_RETRIES 0

/-! ## useSentimentProcessor.js — coordinator state machine -/

/-- The constant `MIN_TEXT_LENGTH` (line 30). -/
def MIN_TEXT_LENGTH : ℕ := 3

/-- The mutable state of one `useSentimentProcessor` instance: the React
state cells (`sentiment`, `keywords`, `isProcessing`, `error`) and the refs
(`debounceTimer` with the text its callback captured, `lastProcessedText`,
`requestQueue`, and `processingLock` paired with the text of the in-flight request
as `inFlight`; the lock is held exactly while `inFlight` is `some`). -/
structure CoordState where
  sentiment : Option Sentiment
  keywords : List String
  isProcessing : Bool
  error : Option String
  debounce : Option String
  lastProcessedText : String
  requestQueue : List String
  inFlight : Option String
deriving DecidableEq

/-- The synchronous entry of `processText` (lines 40-66): return unchanged
unless the transcript is final, the trimmed text reaches `MIN_TEXT_LENGTH`,
and the text differs from the last processed text; otherwise clear any
pending debounce timer and arm a fresh 500 ms timer capturing this text. -/
def submitStep (s : CoordState) (text : String) (isFinal : Bool) : CoordState :=
  if !isFinal then s
  else if (jsTrim text).length < MIN_TEXT_LENGTH then s
  else if text = s.lastProcessedText then s
  else { s with debounce := some text }

/-- The debounce timer callback up to issuing the request (lines 66-85): the
timer has fired, so it is no longer pending; if the processing lock is held,
push the text onto the queue and return; otherwise take the lock, set
`isProcessing`, clear the error, and issue the request for this text. -/
def fireStep (s : CoordState) : CoordState :=
  match s.debounce with
  | none => s
  | some text =>
    if s.inFlight.isSome then
      { s with debounce := none, requestQueue := s.requestQueue ++ [text] }
    else
      { s with debounce := none, inFlight := some text, isProcessing := true, error := none }

/-- The response-handling block (lines 129-150): update the sentiment via
`updateSentiment` when the body carries a sentiment object, and replace the
keyword state when the body carries a keywords array (even an empty one). -/
def applyBody (s : CoordState) (body : Body) : CoordState :=
  let s1 :=
    match body.sentiment with
    | some inc => { s with sentiment := some (updateSentiment s.sentiment inc) }
    | none => s
  match body.keywords with
  | some ks => { s1 with keywords := ks }
  | none => s1

/-- The finally block (lines 185-196): clear `isProcessing` and release the
lock; then, if the queue is non-empty, shift its first element and re-enter
`processText` with it (the 100 ms later re-entry is the synchronous part of
`processText`, i.e. `submitStep`, with `isFinal = true`). -/
def finallyStep (s : CoordState) : CoordState :=
  let s1 := { s with isProcessing := false, inFlight := none }
  match s1.requestQueue with
  | [] => s1
  | next :: rest => submitStep { s1 with requestQueue := rest } next true

/-- Settlement of the in-flight request (lines 126-196): on a response with a
(truthy) body, apply it and record the submitted text as the dedup key; on a
re-thrown error, set the classified error message; when the loop broke out
with no response, change nothing. The finally block runs in every case. -/
def completeStep (s : CoordState) (r : LoopResult) : CoordState :=
  match s.inFlight with
  | none => s
  | some text =>
    match r with
    | .gotResponse body => finallyStep { applyBody s body with lastProcessedText := text }
    | .threw e => finallyStep { s with error := some (classifyError e) }
    | .abortedOut => finallyStep s
    | .noResponse => finallyStep s

/-- The observable events of one coordinator instance: a call of
`processText(text, isFinal)`, the expiry of the armed debounce timer, and the
completion of the in-flight request with a given loop result. -/
inductive Event where
  | submit (text : String) (isFinal : Bool)
  | fire
  | complete (r : LoopResult)

/-- Apply one event to the coordinator state. -/
def coordStep (s : CoordState) : Event → CoordState
  | .submit text isFinal => submitStep s text isFinal
  | .fire => fireStep s
  | .complete r => completeStep s r

/-- Run a sequence of events from a state. -/
def coordRun (s : CoordState) (events : List Event) : CoordState :=
  events.foldl coordStep s

/-- The state of a freshly mounted hook (lines 15-25). -/
def initState : CoordState :=
  { sentiment := none, keywords := [], isProcessing := false, error := none
    debounce := none, lastProcessedText := "", requestQueue := [], inFlight := none }

/-! ## Concrete traces and witness states used by the theorems -/

def exC4 : List Event :=
  [.submit "first message" true, .fire,
   .submit "second message" true, .fire,
   .submit "third message!!" true, .fire]

def stateC4w : CoordState :=
  { initState with
    debounce := some "queued text"
    inFlight := some "busy text"
    requestQueue := ["early text"] }

def exC5 : List Event :=
  [.submit "I love this product" true, .fire,
   .complete (.gotResponse ⟨some ⟨1, "positive", "strong"⟩, some ["love"]⟩),
   .submit "Another final text" true, .fire,
   .complete (.gotResponse ⟨none, none⟩)]

def stateC5w : CoordState :=
  { initState with
    sentiment := some ⟨1, "positive", "strong"⟩
    keywords := ["love"]
    inFlight := some "Another final text" }

def exC6 : List Event :=
  [.submit "What a great day" true, .fire,
   .complete (.gotResponse ⟨some ⟨1, "positive", "strong"⟩, some ["great", "day"]⟩),
   .submit "Something different" true, .fire,
   .complete (.gotResponse ⟨none, some []⟩)]

def stateC6w : CoordState :=
  { initState with keywords := ["great", "day"], inFlight := some "Something different" }

def respErr (status : ℕ) : JsError :=
  { name := "AxiosError", code := "ERR_BAD_RESPONSE", responseStatus := some status
    responseMessage := none, hasRequest := true, message := some "Request failed" }

def networkErr : JsError :=
  { name := "AxiosError", code := "ERR_NETWORK", responseStatus := none
    responseMessage := none, hasRequest := true, message := some "Network Error" }

def stateC9w : CoordState :=
  { initState with
    sentiment := some ⟨1, "positive", "strong"⟩
    keywords := ["love"]
    lastProcessedText := "I love this product"
    inFlight := some "It broke today" }

def exC10 : List Event :=
  [.submit "I love this product" true, .fire, .complete .abortedOut]

def stateC10w : CoordState :=
  { initState with inFlight := some "Great product overall" }

def stateC10w2 : CoordState :=
  { initState with lastProcessedText := "Great product overall" }

/-! ## Helper lemmas -/

/-- The function `submitStep` either leaves the state unchanged or only rearms the
debounce timer. -/
lemma submitStep_eq_or (s : CoordState) (t : String) (b : Bool) :
    submitStep s t b = s ∨ submitStep s t b = { s with debounce := some t } := by
  unfold submitStep
  by_cases h1 : (!b) = true
  · simp [h1]
  · simp only [h1, if_false]
    by_cases h2 : (jsTrim t).length < MIN_TEXT_LENGTH
    · simp [h2]
    · simp only [h2, if_false]
      by_cases h3 : t = s.lastProcessedText
      · simp [h3]
      · simp [h3]

lemma submitStep_inFlight (s : CoordState) (t : String) (b : Bool) :
    (submitStep s t b).inFlight = s.inFlight := by
  rcases submitStep_eq_or s t b with h | h <;> rw [h]

lemma submitStep_requestQueue (s : CoordState) (t : String) (b : Bool) :
    (submitStep s t b).requestQueue = s.requestQueue := by
  rcases submitStep_eq_or s t b with h | h <;> rw [h]

lemma submitStep_lastProcessedText (s : CoordState) (t : String) (b : Bool) :
    (submitStep s t b).lastProcessedText = s.lastProcessedText := by
  rcases submitStep_eq_or s t b with h | h <;> rw [h]

lemma submitStep_sentiment (s : CoordState) (t : String) (b : Bool) :
    (submitStep s t b).sentiment = s.sentiment := by
  rcases submitStep_eq_or s t b with h | h <;> rw [h]

lemma submitStep_keywords (s : CoordState) (t : String) (b : Bool) :
    (submitStep s t b).keywords = s.keywords := by
  rcases submitStep_eq_or s t b with h | h <;> rw [h]

lemma submitStep_error (s : CoordState) (t : String) (b : Bool) :
    (submitStep s t b).error = s.error := by
  rcases submitStep_eq_or s t b with h | h <;> rw [h]

lemma submitStep_isProcessing (s : CoordState) (t : String) (b : Bool) :
    (submitStep s t b).isProcessing = s.isProcessing := by
  rcases submitStep_eq_or s t b with h | h <;> rw [h]

/-- The finally block preserves the data fields, releases the lock and clears
`isProcessing`. -/
lemma finallyStep_fields (s : CoordState) :
    (finallyStep s).sentiment = s.sentiment ∧ (finallyStep s).keywords = s.keywords ∧
    (finallyStep s).error = s.error ∧
    (finallyStep s).lastProcessedText = s.lastProcessedText ∧
    (finallyStep s).inFlight = none ∧ (finallyStep s).isProcessing = false := by
  unfold finallyStep
  rcases h : s.requestQueue with _ | ⟨next, rest⟩
  · simp [h]
  · simp [h, submitStep_sentiment, submitStep_keywords, submitStep_error,
      submitStep_lastProcessedText, submitStep_inFlight, submitStep_isProcessing]

lemma applyBody_fields (s : CoordState) (body : Body) :
    (applyBody s body).error = s.error ∧
    (applyBody s body).lastProcessedText = s.lastProcessedText ∧
    (applyBody s body).requestQueue = s.requestQueue ∧
    (applyBody s body).inFlight = s.inFlight := by
  unfold applyBody
  rcases body with ⟨bs, bk⟩
  rcases bs with _ | inc <;> rcases bk with _ | ks <;> simp


/-- Claim C1: with a previous sentiment whose score is s0 and an incoming
sentiment whose score is s1, both in [0,1], the new score is
0.3 * s0 + 0.7 * s1 while type and intensity are replaced outright by the
incoming values; with no previous sentiment the incoming object is taken
wholesale. -/
theorem C1_sentiment_smoothing (p incoming : Sentiment)
    (h0 : 0 ≤ p.score) (h1 : p.score ≤ 1)
    (h2 : 0 ≤ incoming.score) (h3 : incoming.score ≤ 1) :
    (updateSentiment (some p) incoming).score = 3/10 * p.score + 7/10 * incoming.score ∧
    (updateSentiment (some p) incoming).type = incoming.type ∧
    (updateSentiment (some p) incoming).intensity = incoming.intensity ∧
    updateSentiment none incoming = incoming := by
  refine ⟨?_, rfl, rfl, rfl⟩
  show p.score * (3/10) + incoming.score * (7/10) = 3/10 * p.score + 7/10 * incoming.score
  ring

/-- Witness for C1 at previous score 1/2 and incoming score 1. -/
theorem C1_sentiment_smoothing_witness :
    (updateSentiment (some ⟨1/2, "neutral", "weak"⟩) ⟨1, "positive", "strong"⟩).score
        = 3/10 * (1/2) + 7/10 * 1 ∧
    (updateSentiment (some ⟨1/2, "neutral", "weak"⟩) ⟨1, "positive", "strong"⟩).type
        = "positive" ∧
    (updateSentiment (some ⟨1/2, "neutral", "weak"⟩) ⟨1, "positive", "strong"⟩).intensity
        = "strong" ∧
    updateSentiment none ⟨1, "positive", "strong"⟩ = ⟨1, "positive", "strong"⟩ :=
  C1_sentiment_smoothing ⟨1/2, "neutral", "weak"⟩ ⟨1, "positive", "strong"⟩
    (by norm_num) (by norm_num) (by norm_num) (by norm_num)

/-- The clamp is idempotent, so a sample encodes the same as its clamped
value. -/
lemma clampSample_idem (x : ℚ) : clampSample (clampSample x) = clampSample x := by
  unfold clampSample
  have hle : max (-1 : ℚ) (min 1 x) ≤ 1 :=
    max_le (by norm_num) (min_le_left 1 x)
  rw [min_eq_right hle, ← max_assoc, max_self]

/-- Claim C2: float-to-PCM16 encoding first clamps each sample to [-1, 1] and
then scales negative samples by 32768 and non-negative samples by 32767;
encode 1 = 32767, encode (-1) = -32768, encode 0 = 0, and any input encodes
the same as its clamped value (so out-of-range inputs behave like their
clamp); the buffer conversion applies this samplewise. -/
theorem C2_pcm16_encoding :
    encodeSample 1 = 32767 ∧ encodeSample (-1) = -32768 ∧ encodeSample 0 = 0 ∧
    (∀ x : ℚ, encodeSample x = encodeSample (clampSample x)) ∧
    (∀ x : ℚ, clampSample x < 0 → encodeSample x = jsTrunc (clampSample x * 32768)) ∧
    (∀ x : ℚ, 0 ≤ clampSample x → encodeSample x = jsTrunc (clampSample x * 32767)) ∧
    (∀ buffer : List ℚ, convertFloat32ToInt16 buffer = buffer.map encodeSample) := by
  refine ⟨?_, ?_, ?_, ?_, ?_, ?_, fun _ => rfl⟩
  · norm_num [encodeSample, clampSample, jsTrunc]
  · norm_num [encodeSample, clampSample, jsTrunc]
    exact_mod_cast Int.ceil_intCast (α := ℚ) (-32768)
  · norm_num [encodeSample, clampSample, jsTrunc]
  · intro x
    unfold encodeSample
    rw [clampSample_idem]
  · intro x h
    unfold encodeSample
    simp only [if_pos h]
  · intro x h
    unfold encodeSample
    simp only [if_neg (not_lt.mpr h)]

/-- Witness for C2 at the out-of-range inputs 2 and -2. -/
theorem C2_pcm16_encoding_witness :
    encodeSample 2 = encodeSample (clampSample 2) ∧
    encodeSample (-2) = jsTrunc (clampSample (-2) * 32768) ∧
    encodeSample 2 = jsTrunc (clampSample 2 * 32767) :=
  ⟨C2_pcm16_encoding.2.2.2.1 2,
   C2_pcm16_encoding.2.2.2.2.1 (-2) (by norm_num [clampSample]),
   C2_pcm16_encoding.2.2.2.2.2.1 2 (by norm_num [clampSample])⟩

/-- Claim C3: starting from a fresh counter, consecutive abnormal closes
(code not 1000) schedule reconnects after 2000 ms, 4000 ms and 8000 ms — each
delay being min(1000 * 2 ^ attempt, 10000) for the just-incremented attempt
counter — and after the third failed reconnect no fourth one is scheduled. -/
theorem C3_reconnect_backoff (code : ℕ) (h : code ≠ 1000) :
    onCloseStep code 0 = some (1, 2000) ∧
    onCloseStep code 1 = some (2, 4000) ∧
    onCloseStep code 2 = some (3, 8000) ∧
    onCloseStep code 3 = none ∧
    (∀ attempts : ℕ, handleReconnect attempts
        = (attempts + 1, min (1000 * 2 ^ (attempts + 1)) 10000)) := by
  refine ⟨?_, ?_, ?_, ?_, fun _ => rfl⟩ <;>
    norm_num [onCloseStep, handleReconnect, maxReconnectAttempts, h]

/-- Witness for C3 at the abnormal close code 1006. -/
theorem C3_reconnect_backoff_witness :
    onCloseStep 1006 0 = some (1, 2000) ∧
    onCloseStep 1006 1 = some (2, 4000) ∧
    onCloseStep 1006 2 = some (3, 8000) ∧
    onCloseStep 1006 3 = none ∧
    (∀ attempts : ℕ, handleReconnect attempts
        = (attempts + 1, min (1000 * 2 ^ (attempts + 1)) 10000)) :=
  C3_reconnect_backoff 1006 (by decide)

/-- Claim C8: request execution makes at most MAX_RETRIES = 3 attempts; a
non-abort failure at attempt 0 or 1 is followed by a wait of
RETRY_DELAY * attemptNumber (1000 ms after the first failure, 2000 ms after
the second) and a retry, while an abort-like error stops the loop at once
with no further attempt; the third non-abort failure is rethrown. The
equation characterizes the loop on every network behaviour. -/
theorem C8_retry_policy (net : ℕ → Except JsError Body) :
    executeRequest net =
      (match net 0 with
       | Except.ok b => (.gotResponse b, 1, [])
       | Except.error e =>
         if isAbortLike e then (.abortedOut, 1, [])
         else
           match net 1 with
           | Except.ok b => (.gotResponse b, 2, [1000])
           | Except.error f =>
             if isAbortLike f then (.abortedOut, 2, [1000])
             else
               match net 2 with
               | Except.ok b => (.gotResponse b, 3, [1000, 2000])
               | Except.error g =>
                 if isAbortLike g then (.abortedOut, 3, [1000, 2000])
                 else (.threw g, 3, [1000, 2000])) ∧
    (executeRequest net).2.1 ≤ MAX_RETRIES := by
  have hmain : executeRequest net =
      (match net 0 with
       | Except.ok b => (.gotResponse b, 1, [])
       | Except.error e =>
         if isAbortLike e then (.abortedOut, 1, [])
         else
           match net 1 with
           | Except.ok b => (.gotResponse b, 2, [1000])
           | Except.error f =>
             if isAbortLike f then (.abortedOut, 2, [1000])
             else
               match net 2 with
               | Except.ok b => (.gotResponse b, 3, [1000, 2000])
               | Except.error g =>
                 if isAbortLike g then (.abortedOut, 3, [1000, 2000])
                 else (.threw g, 3, [1000, 2000])) := by
    rcases h0 : net 0 with e0 | b0
    · simp only [executeRequest, MAX_RETRIES, retryFrom, h0]
      by_cases ha0 : isAbortLike e0
      · simp [ha0]
      · simp only [ha0, if_false, Bool.false_eq_true]
        rcases h1 : net 1 with e1 | b1
        · by_cases ha1 : isAbortLike e1
          · simp [h1, ha1, RETRY_DELAY]
          · simp only [h1, ha1, if_false, Bool.false_eq_true]
            rcases h2 : net 2 with e2 | b2
            · by_cases ha2 : isAbortLike e2
              · simp [h2, ha2, RETRY_DELAY]
              · simp [h2, ha2, RETRY_DELAY]
            · simp [h2, RETRY_DELAY]
        · simp [h1, RETRY_DELAY]
    · simp [executeRequest, MAX_RETRIES, retryFrom, h0]
  refine ⟨hmain, ?_⟩
  rw [hmain]
  rcases net 0 with e0 | b0
  · by_cases ha0 : isAbortLike e0
    · simp [ha0, MAX_RETRIES]
    · simp only [ha0, if_false, Bool.false_eq_true]
      rcases net 1 with e1 | b1
      · by_cases ha1 : isAbortLike e1
        · simp [ha1, MAX_RETRIES]
        · simp only [ha1, if_false, Bool.false_eq_true]
          rcases net 2 with e2 | b2
          · by_cases ha2 : isAbortLike e2
            · simp [ha2, MAX_RETRIES]
            · simp [ha2, MAX_RETRIES]
          · simp [MAX_RETRIES]
      · simp [MAX_RETRIES]
  · simp [MAX_RETRIES]

/-- Claim C4 counterexample: a reachable run in which three debounce expiries
happen while one slow request stays in flight. The pending queue then holds
two items at once, and neither replaced the other, so the queue is not
bounded by one with a newest-wins policy (the code appends with push). -/
theorem C4_queue_counterexample :
    (coordRun initState exC4).requestQueue = ["second message", "third message!!"] ∧
    (coordRun initState exC4).inFlight = some "first message" := by decide

/-- Claim C4 (amended): a text whose debounce expires while a request is in
flight is appended to the pending queue, which is an unbounded FIFO; on
completion of the in-flight request the queue is consumed from the front. -/
theorem C4_queue_fifo (s : CoordState) (text t next : String) (rest : List String)
    (r : LoopResult) (hd : s.debounce = some text) (ht : s.inFlight = some t)
    (hq : s.requestQueue = next :: rest) :
    (fireStep s).requestQueue = s.requestQueue ++ [text] ∧
    (completeStep s r).requestQueue = rest := by
  constructor
  · unfold fireStep
    rw [hd]
    simp [ht]
  · unfold completeStep
    rw [ht]
    have hfin : ∀ u : CoordState, u.requestQueue = next :: rest →
        (finallyStep u).requestQueue = rest := by
      intro u hu
      unfold finallyStep
      simp [hu, submitStep_requestQueue]
    rcases r with body | _ | e | _
    · exact hfin _ (by simp [(applyBody_fields s body).2.2.1, hq])
    · exact hfin _ hq
    · exact hfin _ hq
    · exact hfin _ hq

/-- Witness for the amended C4 at a concrete in-flight state with one queued
item. -/
theorem C4_queue_fifo_witness :
    (fireStep stateC4w).requestQueue = stateC4w.requestQueue ++ ["queued text"] ∧
    (completeStep stateC4w LoopResult.abortedOut).requestQueue = [] :=
  C4_queue_fifo stateC4w "queued text" "busy text" "early text" [] .abortedOut (by rfl) (by rfl)
    (by rfl)

/-- Claim C5 counterexample: a successful response whose body has no
sentiment object (the response for the second text carries neither sentiment
nor keywords, as for the body produced by a malformed reply) leaves the
existing sentiment and keyword state untouched, but the error slot stays
empty: no PARSE_ERROR-class error (nor any error) is surfaced, because only
thrown errors reach the catch block. -/
theorem C5_no_parse_error_counterexample :
    (coordRun initState exC5).error = none ∧
    (coordRun initState exC5).sentiment = some ⟨1, "positive", "strong"⟩ ∧
    (coordRun initState exC5).keywords = ["love"] := by decide

/-- Claim C5 (amended): every successful response whose body lacks a
sentiment object — whatever its keywords field holds — leaves the sentiment
state unchanged and surfaces no error of any kind (the error slot keeps its
prior, cleared, value); the keyword state is left unchanged exactly when such
a body also lacks a keywords array (as for the empty object), while a
sentiment-lacking body that does carry a keywords array still replaces the
keyword state with it. -/
theorem C5_missing_sentiment_keeps_state (s : CoordState) (text : String)
    (bk : Option (List String)) (ks : List String) (h : s.inFlight = some text) :
    (completeStep s (.gotResponse ⟨none, bk⟩)).sentiment = s.sentiment ∧
    (completeStep s (.gotResponse ⟨none, bk⟩)).error = s.error ∧
    (completeStep s (.gotResponse ⟨none, none⟩)).keywords = s.keywords ∧
    (completeStep s (.gotResponse ⟨none, some ks⟩)).keywords = ks := by
  unfold completeStep
  rw [h]
  refine ⟨?_, ?_, ?_, ?_⟩
  · rw [(finallyStep_fields _).1]
    rcases bk with _ | ks2 <;> rfl
  · rw [(finallyStep_fields _).2.2.1]
    rcases bk with _ | ks2 <;> rfl
  · rw [(finallyStep_fields _).2.1]
    rfl
  · rw [(finallyStep_fields _).2.1]
    rfl

/-- Witness for the amended C5 at a concrete state holding an earlier
sentiment and keyword batch, against a sentiment-lacking body that does carry
a keywords array. -/
theorem C5_missing_sentiment_keeps_state_witness :
    (completeStep stateC5w (.gotResponse ⟨none, some ["new"]⟩)).sentiment
      = stateC5w.sentiment ∧
    (completeStep stateC5w (.gotResponse ⟨none, some ["new"]⟩)).error
      = stateC5w.error ∧
    (completeStep stateC5w (.gotResponse ⟨none, none⟩)).keywords = stateC5w.keywords ∧
    (completeStep stateC5w (.gotResponse ⟨none, some ["new"]⟩)).keywords = ["new"] :=
  C5_missing_sentiment_keeps_state stateC5w "Another final text" (some ["new"]) ["new"]
    (by rfl)

/-- Claim C6 counterexample: after a first response sets the keywords to
["great", "day"], a later successful response whose keywords field is the
empty array does not leave the keyword state unchanged — it replaces it with
the empty list, because the code only checks that the field is an array. -/
theorem C6_empty_keywords_counterexample :
    (coordRun initState (exC6.take 3)).keywords = ["great", "day"] ∧
    (coordRun initState exC6).keywords = [] := by decide

/-- Claim C6 (amended): a new keyword batch is emitted whenever the
keywords field of the response is present as an array — including the empty
array, which replaces the keyword state with the empty list; only an absent
(or non-array) keywords field leaves the keyword state unchanged. -/
theorem C6_keywords_update (s : CoordState) (text : String) (ks : List String)
    (h : s.inFlight = some text) :
    (completeStep s (.gotResponse ⟨none, some ks⟩)).keywords = ks ∧
    (completeStep s (.gotResponse ⟨none, none⟩)).keywords = s.keywords := by
  unfold completeStep
  rw [h]
  constructor
  · have h1 : (finallyStep { applyBody s ⟨none, some ks⟩ with lastProcessedText := text }).keywords
        = ({ applyBody s ⟨none, some ks⟩ with lastProcessedText := text } : CoordState).keywords :=
      (finallyStep_fields _).2.1
    rw [h1]
    rfl
  · have h2 : (finallyStep { applyBody s ⟨none, none⟩ with lastProcessedText := text }).keywords
        = ({ applyBody s ⟨none, none⟩ with lastProcessedText := text } : CoordState).keywords :=
      (finallyStep_fields _).2.1
    rw [h2]
    rfl

/-- Witness for the amended C6: an empty keywords array replaces a previous
non-empty batch, while an absent field keeps it. -/
theorem C6_keywords_update_witness :
    (completeStep stateC6w (.gotResponse ⟨none, some []⟩)).keywords = [] ∧
    (completeStep stateC6w (.gotResponse ⟨none, none⟩)).keywords = stateC6w.keywords :=
  C6_keywords_update stateC6w "Something different" [] (by rfl)

/-- A valid submission (final, long enough, not a duplicate) rearms the
debounce timer with its text. -/
lemma submitStep_valid (s : CoordState) (t : String)
    (hlen : MIN_TEXT_LENGTH ≤ (jsTrim t).length) (hne : t ≠ s.lastProcessedText) :
    submitStep s t true = { s with debounce := some t } := by
  unfold submitStep
  simp [Nat.not_lt.mpr hlen, hne]

/-- Folding a window of valid submissions leaves only the last text armed in
the debounce timer and touches nothing else. -/
lemma foldl_submit_valid (ts : List String) : ∀ (s : CoordState) (d : String),
    (∀ t ∈ ts, MIN_TEXT_LENGTH ≤ (jsTrim t).length ∧ t ≠ s.lastProcessedText) →
    ts ≠ [] →
    (ts.foldl (fun st t => submitStep st t true) s).debounce = some (ts.getLastD d) ∧
    (ts.foldl (fun st t => submitStep st t true) s).inFlight = s.inFlight ∧
    (ts.foldl (fun st t => submitStep st t true) s).requestQueue = s.requestQueue ∧
    (ts.foldl (fun st t => submitStep st t true) s).lastProcessedText
      = s.lastProcessedText := by
  induction ts with
  | nil => intro s d _ hne; exact absurd rfl hne
  | cons t rest ih =>
    intro s d hvalid _
    have hstep : submitStep s t true = { s with debounce := some t } :=
      submitStep_valid s t (hvalid t (List.mem_cons_self t rest)).1
        (hvalid t (List.mem_cons_self t rest)).2
    rcases rest with _ | ⟨r, rs⟩
    · simp [List.foldl_cons, List.foldl_nil, hstep, List.getLastD_cons,
        List.getLastD_nil]
    · have hvalid' : ∀ u ∈ r :: rs, MIN_TEXT_LENGTH ≤ (jsTrim u).length ∧
          u ≠ (submitStep s t true).lastProcessedText := by
        intro u hu
        rw [hstep]
        exact hvalid u (List.mem_cons_of_mem t hu)
      have hrec := ih (submitStep s t true) t hvalid' (by simp)
      simp only [List.foldl_cons] at hrec ⊢
      refine ⟨?_, ?_, ?_, ?_⟩
      · rw [List.getLastD_cons]
        exact hrec.1
      · rw [hrec.2.1, hstep]
      · rw [hrec.2.2.1, hstep]
      · rw [hrec.2.2.2, hstep]

/-- Claim C7: within one debounce window in the idle state, a burst of valid
final submissions leaves exactly the last text armed; the expiry then issues
exactly one request, carrying that last text, and enqueues nothing (earlier
calls were superseded, not queued). Non-final calls, texts whose trim is
shorter than MIN_TEXT_LENGTH, and texts equal to the last processed text
change nothing at all. -/
theorem C7_debounce_collapse (s : CoordState) (ts : List String) (u v w : String)
    (hne : ts ≠ []) (hidle : s.inFlight = none)
    (hvalid : ∀ t ∈ ts, MIN_TEXT_LENGTH ≤ (jsTrim t).length ∧ t ≠ s.lastProcessedText)
    (hu : (jsTrim u).length < MIN_TEXT_LENGTH) (hv : v = s.lastProcessedText) :
    (ts.foldl (fun st t => submitStep st t true) s).debounce = some (ts.getLastD "") ∧
    fireStep (ts.foldl (fun st t => submitStep st t true) s)
      = { ts.foldl (fun st t => submitStep st t true) s with
          debounce := none
          inFlight := some (ts.getLastD "")
          isProcessing := true
          error := none } ∧
    (fireStep (ts.foldl (fun st t => submitStep st t true) s)).requestQueue
      = s.requestQueue ∧
    submitStep s w false = s ∧
    submitStep s u true = s ∧
    submitStep s v true = s := by
  obtain ⟨h1, h2, h3, h4⟩ := foldl_submit_valid ts s "" hvalid hne
  have hfire : fireStep (ts.foldl (fun st t => submitStep st t true) s)
      = { ts.foldl (fun st t => submitStep st t true) s with
          debounce := none
          inFlight := some (ts.getLastD "")
          isProcessing := true
          error := none } := by
    unfold fireStep
    rw [h1]
    have : (ts.foldl (fun st t => submitStep st t true) s).inFlight.isSome = false := by
      rw [h2, hidle]; rfl
    rw [this]
    simp
  refine ⟨h1, hfire, ?_, ?_, ?_, ?_⟩
  · rw [hfire]
    exact h3
  · unfold submitStep
    simp
  · unfold submitStep
    simp [hu]
  · unfold submitStep
    by_cases hlen : (jsTrim v).length < MIN_TEXT_LENGTH
    · simp [hlen]
    · simp [hlen, hv]

/-- Witness for C7: two valid submissions in one window from the fresh
state; only the last text survives and fires. -/
theorem C7_debounce_collapse_witness :
    ((["hello there", "ok!!"] : List String).foldl
        (fun st t => submitStep st t true) initState).debounce = some "ok!!" ∧
    fireStep ((["hello there", "ok!!"] : List String).foldl
        (fun st t => submitStep st t true) initState)
      = { (["hello there", "ok!!"] : List String).foldl
            (fun st t => submitStep st t true) initState with
          debounce := none
          inFlight := some "ok!!"
          isProcessing := true
          error := none } ∧
    (fireStep ((["hello there", "ok!!"] : List String).foldl
        (fun st t => submitStep st t true) initState)).requestQueue
      = initState.requestQueue ∧
    submitStep initState "xyz" false = initState ∧
    submitStep initState "a" true = initState ∧
    submitStep initState "" true = initState :=
  C7_debounce_collapse initState ["hello there", "ok!!"] "a" "" "xyz"
    (by decide) (by rfl) (by decide) (by decide) (by rfl)

/-- Claim C9: when the request fails after the retries are exhausted (the
last error is rethrown), the coordinator surfaces the classified error
message and leaves the sentiment, keyword and dedup state untouched; the
classification distinguishes 400, 500 and 503 responses and no-response
network failures by four pairwise distinct messages. -/
theorem C9_failure_keeps_state (s : CoordState) (text : String) (e : JsError)
    (h : s.inFlight = some text) :
    (completeStep s (.threw e)).sentiment = s.sentiment ∧
    (completeStep s (.threw e)).keywords = s.keywords ∧
    (completeStep s (.threw e)).lastProcessedText = s.lastProcessedText ∧
    (completeStep s (.threw e)).error = some (classifyError e) ∧
    classifyError (respErr 400) = "Invalid text format" ∧
    classifyError (respErr 500) = "Sentiment analysis service unavailable" ∧
    classifyError (respErr 503) = "Service temporarily unavailable" ∧
    classifyError networkErr
      = "Cannot connect to backend. Please ensure the server is running." ∧
    [classifyError (respErr 400), classifyError (respErr 500),
      classifyError (respErr 503), classifyError networkErr].Nodup := by
  unfold completeStep
  rw [h]
  refine ⟨(finallyStep_fields _).1, (finallyStep_fields _).2.1, ?_, ?_,
    by decide, by decide, by decide, by decide, by decide⟩
  · exact (finallyStep_fields _).2.2.2.1
  · exact (finallyStep_fields _).2.2.1

/-- Witness for C9 at a concrete in-flight state and a 503 response error. -/
theorem C9_failure_keeps_state_witness :
    (completeStep stateC9w (.threw (respErr 503))).sentiment = stateC9w.sentiment ∧
    (completeStep stateC9w (.threw (respErr 503))).keywords = stateC9w.keywords ∧
    (completeStep stateC9w (.threw (respErr 503))).lastProcessedText
      = stateC9w.lastProcessedText ∧
    (completeStep stateC9w (.threw (respErr 503))).error
      = some (classifyError (respErr 503)) ∧
    classifyError (respErr 400) = "Invalid text format" ∧
    classifyError (respErr 500) = "Sentiment analysis service unavailable" ∧
    classifyError (respErr 503) = "Service temporarily unavailable" ∧
    classifyError networkErr
      = "Cannot connect to backend. Please ensure the server is running." ∧
    [classifyError (respErr 400), classifyError (respErr 500),
      classifyError (respErr 503), classifyError networkErr].Nodup :=
  C9_failure_keeps_state stateC9w "It broke today" (respErr 503) (by rfl)

/-- Claim C10 counterexample: a request that is aborted or times out leaves
the retry loop through the break with no response and nothing is thrown (the
catch block never runs: the error slot is still empty), yet the dedup key is
not recorded either — so completing without a throw is not sufficient for
the text to be recorded, contradicting the clause "only requests that fail
(throw) leave the dedup key unchanged". -/
theorem C10_abort_dedup_counterexample :
    (coordRun initState (exC10.take 2)).inFlight = some "I love this product" ∧
    (coordRun initState exC10).lastProcessedText = "" ∧
    (coordRun initState exC10).error = none ∧
    (coordRun initState exC10).inFlight = none := by decide

/-- Claim C10 (amended): a request that completes with a (truthy) response
body — even one without a sentiment object — records the submitted text as
the dedup key, and any later submit of that exact text is ignored; a request
that throws, and likewise one that is aborted or times out (break, no
response), leaves the dedup key unchanged. -/
theorem C10_dedup_recording (s s2 : CoordState) (text : String) (body : Body)
    (e : JsError) (h : s.inFlight = some text) (h2 : s2.lastProcessedText = text) :
    (completeStep s (.gotResponse body)).lastProcessedText = text ∧
    (completeStep s (.threw e)).lastProcessedText = s.lastProcessedText ∧
    (completeStep s .abortedOut).lastProcessedText = s.lastProcessedText ∧
    submitStep s2 text true = s2 := by
  unfold completeStep
  rw [h]
  refine ⟨?_, (finallyStep_fields _).2.2.2.1, (finallyStep_fields _).2.2.2.1, ?_⟩
  · rw [(finallyStep_fields _).2.2.2.1]
  · unfold submitStep
    by_cases hlen : (jsTrim text).length < MIN_TEXT_LENGTH
    · simp [hlen]
    · simp [hlen, h2]

/-- Witness for the amended C10 at a concrete in-flight state, an empty body
and a network error. -/
theorem C10_dedup_recording_witness :
    (completeStep stateC10w (.gotResponse ⟨none, none⟩)).lastProcessedText
      = "Great product overall" ∧
    (completeStep stateC10w (.threw networkErr)).lastProcessedText
      = stateC10w.lastProcessedText ∧
    (completeStep stateC10w .abortedOut).lastProcessedText
      = stateC10w.lastProcessedText ∧
    submitStep stateC10w2 "Great product overall" true = stateC10w2 :=
  C10_dedup_recording stateC10w stateC10w2 "Great product overall" ⟨none, none⟩
    networkErr (by rfl) (by rfl)

